import Mathlib

/-
  Formal model of the enrollment-analytics core:
    src/utils/metrics.py     (YoY deltas, diversity index, decomposition, ranks)
    src/utils/data_model.py  (peer groups, scenario simulation, goal seeking)

  Python numbers are modelled as exact rationals.  Where IEEE special values
  (NaN, infinities) are observable through pandas' `pd.isna`, the PyFloat type
  carries them explicitly.  Python's `round` (ties to even) is modelled by
  pyRound / roundTo; all inputs used in concrete statements below are exactly
  representable in binary floating point, so the rational model agrees with
  CPython there.
-/

namespace EnrollmentAnalytics

/-- Python's built-in `round(x)` to the nearest integer, ties to even. -/
def pyRound (x : ℚ) : ℤ :=
  if Int.fract x < 1/2 then ⌊x⌋
  else if 1/2 < Int.fract x then ⌊x⌋ + 1
  else if ⌊x⌋ % 2 = 0 then ⌊x⌋ else ⌊x⌋ + 1

/-- Python's `round(x, n)` to `n` decimal places, modelled over the rationals. -/
def roundTo (n : ℕ) (x : ℚ) : ℚ := (pyRound (x * 10 ^ n) : ℚ) / 10 ^ n

/-- Python's `int(x)` truncation toward zero. -/
def pyInt (x : ℚ) : ℤ := if 0 ≤ x then ⌊x⌋ else ⌈x⌉

/-- A Python float: a finite rational, NaN, or a signed infinity. -/
inductive PyFloat where
  | num (q : ℚ)
  | nan
  | inf
  | ninf
deriving DecidableEq, Repr

/-- `pandas.isna` on a float: true exactly for NaN (infinities are NOT na). -/
def PyFloat.isna : PyFloat → Bool
  | .nan => true
  | _ => false

/-- The Python comparison `p >= 0` (False for NaN). -/
def PyFloat.nonneg : PyFloat → Bool
  | .num a => decide (0 ≤ a)
  | .inf => true
  | _ => false

/-- The Python comparison `p == 0` (False for NaN and infinities). -/
def PyFloat.eqZero : PyFloat → Bool
  | .num a => decide (a = 0)
  | _ => false

/-- IEEE addition on Python floats (the cases reachable in this model). -/
def PyFloat.add : PyFloat → PyFloat → PyFloat
  | .nan, _ => .nan
  | _, .nan => .nan
  | .num a, .num b => .num (a + b)
  | .num _, .inf => .inf
  | .inf, .num _ => .inf
  | .num _, .ninf => .ninf
  | .ninf, .num _ => .ninf
  | .inf, .inf => .inf
  | .ninf, .ninf => .ninf
  | .inf, .ninf => .nan
  | .ninf, .inf => .nan

/-- IEEE subtraction on Python floats. -/
def PyFloat.sub : PyFloat → PyFloat → PyFloat
  | .nan, _ => .nan
  | _, .nan => .nan
  | .num a, .num b => .num (a - b)
  | .num _, .inf => .ninf
  | .num _, .ninf => .inf
  | .inf, .num _ => .inf
  | .ninf, .num _ => .ninf
  | .inf, .inf => .nan
  | .ninf, .ninf => .nan
  | .inf, .ninf => .inf
  | .ninf, .inf => .ninf

/-- IEEE multiplication on Python floats. -/
def PyFloat.mul : PyFloat → PyFloat → PyFloat
  | .nan, _ => .nan
  | _, .nan => .nan
  | .num a, .num b => .num (a * b)
  | .num a, .inf => if a = 0 then .nan else if a < 0 then .ninf else .inf
  | .inf, .num a => if a = 0 then .nan else if a < 0 then .ninf else .inf
  | .num a, .ninf => if a = 0 then .nan else if a < 0 then .inf else .ninf
  | .ninf, .num a => if a = 0 then .nan else if a < 0 then .inf else .ninf
  | .inf, .inf => .inf
  | .ninf, .ninf => .inf
  | .inf, .ninf => .ninf
  | .ninf, .inf => .ninf

/-- IEEE division on Python floats.  A zero finite divisor raises
`ZeroDivisionError` in Python; every call site below tests the divisor for
zero first, so that case (mapped to NaN here) is unreachable. -/
def PyFloat.div : PyFloat → PyFloat → PyFloat
  | .nan, _ => .nan
  | _, .nan => .nan
  | .num a, .num b => if b = 0 then .nan else .num (a / b)
  | .num _, .inf => .num 0
  | .num _, .ninf => .num 0
  | .inf, .num b => if b < 0 then .ninf else .inf
  | .ninf, .num b => if b < 0 then .inf else .ninf
  | .inf, .inf => .nan
  | .inf, .ninf => .nan
  | .ninf, .inf => .nan
  | .ninf, .ninf => .nan

/-- Python's `round(x, n)` lifted to floats (NaN and infinities pass through). -/
def pyRoundPF (n : ℕ) : PyFloat → PyFloat
  | .num q => .num (roundTo n q)
  | x => x

/-- Python's `sum(...)` over a list of floats (left fold starting at 0). -/
def sumF (l : List PyFloat) : PyFloat := l.foldl PyFloat.add (.num 0)

/-- `pandas.isna` on an optional float (Python `None` is na). -/
def pd_isna : Option PyFloat → Bool
  | Option.none => true
  | some p => p.isna

/-- src/utils/metrics.py, `calculate_yoy_delta_count` (lines 17-24):
YoY delta for count metrics as percentage change; `None` when `previous`
is None, 0, or na, or `current` is na. -/
def calculate_yoy_delta_count (current previous : Option PyFloat) : Option PyFloat :=
  if previous = Option.none ∨ previous = some (PyFloat.num 0) ∨
      pd_isna previous = true ∨ pd_isna current = true then
    Option.none
  else
    match current, previous with
    | some c, some p => some (((c.sub p).div p).mul (PyFloat.num 100))
    | _, _ => Option.none

/-- src/utils/metrics.py, `calculate_diversity_index` (lines 123-149):
Simpson's diversity index `1 - Σ p_i²` after dropping na/negative entries
and renormalizing; the final value is rounded to 4 decimal places. -/
def calculate_diversity_index (proportions : List PyFloat) : PyFloat :=
  let valid_props := proportions.filter (fun p => !p.isna && p.nonneg)
  if valid_props = [] then .num 0
  else
    let total := sumF valid_props
    if total.eqZero then .num 0
    else
      let normalized := valid_props.map (fun p => p.div total)
      let sum_squared := sumF (normalized.map (fun p => p.mul p))
      pyRoundPF 4 ((PyFloat.num 1).sub sum_squared)

/-- src/utils/metrics.py, rate normalization inside
`decompose_enrolled_variation` (lines 253-256): values above 1 are treated
as percentages. -/
def normalize_rate (x : ℚ) : ℚ := if x > 1 then x / 100 else x

/-- Unrounded `enrolled_base` of the decomposition (line 261). -/
def enrolled_base_raw (A0 r0 y0 : ℚ) : ℚ :=
  A0 * normalize_rate r0 * normalize_rate y0

/-- Unrounded `enrolled_compare` of the decomposition (line 262). -/
def enrolled_compare_raw (A1 r1 y1 : ℚ) : ℚ :=
  A1 * normalize_rate r1 * normalize_rate y1

/-- Unrounded `delta_enrolled` of the decomposition (line 263). -/
def delta_enrolled_raw (A0 r0 y0 A1 r1 y1 : ℚ) : ℚ :=
  enrolled_compare_raw A1 r1 y1 - enrolled_base_raw A0 r0 y0

/-- Unrounded `effect_applicants` of the decomposition (line 266). -/
def effect_applicants_raw (A0 r0 y0 A1 : ℚ) : ℚ :=
  (A1 - A0) * normalize_rate r0 * normalize_rate y0

/-- Unrounded `effect_admit_rate` of the decomposition (line 267). -/
def effect_admit_rate_raw (r0 y0 A1 r1 : ℚ) : ℚ :=
  A1 * (normalize_rate r1 - normalize_rate r0) * normalize_rate y0

/-- Unrounded `effect_yield` of the decomposition (line 268). -/
def effect_yield_raw (y0 A1 r1 y1 : ℚ) : ℚ :=
  A1 * normalize_rate r1 * (normalize_rate y1 - normalize_rate y0)

/-- Unrounded `residual` of the decomposition (line 271): the leftover of
`delta_enrolled` after subtracting the three effects. -/
def residual_raw (A0 r0 y0 A1 r1 y1 : ℚ) : ℚ :=
  delta_enrolled_raw A0 r0 y0 A1 r1 y1 -
    (effect_applicants_raw A0 r0 y0 A1 + effect_admit_rate_raw r0 y0 A1 r1 +
      effect_yield_raw y0 A1 r1 y1)

/-- src/utils/metrics.py, `_identify_primary_driver` (lines 285-302):
first effect of maximal absolute value, in dict-insertion order, tagged with
its direction. -/
def identify_primary_driver (effect_app effect_admit_rate effect_yld : ℚ) : String :=
  let primary :=
    if |effect_admit_rate| ≤ |effect_app| ∧ |effect_yld| ≤ |effect_app| then "applicants"
    else if |effect_yld| ≤ |effect_admit_rate| then "admit_rate"
    else "yield_rate"
  let actual :=
    if primary = "applicants" then effect_app
    else if primary = "admit_rate" then effect_admit_rate
    else effect_yld
  primary ++ (if actual > 0 then "_increase" else "_decrease")

/-- Result dictionary of `decompose_enrolled_variation` (lines 273-282);
every numeric field is rounded to the nearest integer. -/
structure DecomposeResult where
  enrolled_base : ℤ
  enrolled_compare : ℤ
  delta_enrolled : ℤ
  effect_applicants : ℤ
  effect_admit_rate : ℤ
  effect_yield : ℤ
  residual : ℤ
  primary_driver : String
deriving DecidableEq, Repr

/-- src/utils/metrics.py, `decompose_enrolled_variation` (lines 231-282). -/
def decompose_enrolled_variation (A0 r0 y0 A1 r1 y1 : ℚ) : DecomposeResult :=
  { enrolled_base := pyRound (enrolled_base_raw A0 r0 y0)
    enrolled_compare := pyRound (enrolled_compare_raw A1 r1 y1)
    delta_enrolled := pyRound (delta_enrolled_raw A0 r0 y0 A1 r1 y1)
    effect_applicants := pyRound (effect_applicants_raw A0 r0 y0 A1)
    effect_admit_rate := pyRound (effect_admit_rate_raw r0 y0 A1 r1)
    effect_yield := pyRound (effect_yield_raw y0 A1 r1 y1)
    residual := pyRound (residual_raw A0 r0 y0 A1 r1 y1)
    primary_driver := identify_primary_driver (effect_applicants_raw A0 r0 y0 A1)
      (effect_admit_rate_raw r0 y0 A1 r1) (effect_yield_raw y0 A1 r1 y1) }

/-- Result dictionary of `calculate_rank_and_percentile` (lines 347-351). -/
structure RankResult where
  rank : Option ℕ
  total : ℕ
  percentile : Option ℚ
deriving DecidableEq, Repr

/-- src/utils/metrics.py, `calculate_rank_and_percentile` (lines 328-351):
1-indexed descending rank (count of strictly-greater values plus one) and
percentile (share of strictly-smaller values, rounded to 1 decimal).  A na
`value` is modelled as `Option.none`. -/
def calculate_rank_and_percentile (value : Option ℚ) (all_values : List ℚ) : RankResult :=
  if all_values = [] then ⟨Option.none, 0, Option.none⟩
  else
    match value with
    | Option.none => ⟨Option.none, 0, Option.none⟩
    | some v =>
      let total := all_values.length
      let rank := (all_values.filter (fun x => decide (v < x))).length + 1
      let percentile := ((all_values.filter (fun x => decide (x < v))).length : ℚ) / total * 100
      ⟨some rank, total, some (roundTo 1 percentile)⟩

/-- Result dictionary of `simulate_enrollment`
(src/utils/data_model.py lines 400-413).  `delta_enrolled_pct` is modelled
as an `Option` because the surrounding code uses `None` as the
absent-value sentinel; the source always fills this field with a number
(`0` in the zero-base branch). -/
structure SimResult where
  base_applicants : ℤ
  base_admit_rate : ℚ
  base_yield_rate : ℚ
  base_enrolled : ℤ
  proj_applicants : ℤ
  proj_admitted : ℤ
  proj_admit_rate : ℚ
  proj_yield_rate : ℚ
  proj_enrolled : ℤ
  proj_conversion : ℚ
  delta_enrolled : ℤ
  delta_enrolled_pct : Option ℚ
deriving DecidableEq, Repr

/-- src/utils/data_model.py, `simulate_enrollment` (lines 363-413):
projects the enrollment funnel under an applicants change (percent) and
admit/yield rate changes (percentage points, clamped to [0,100]). -/
def simulate_enrollment (base_applicants base_admit_rate base_yield_rate
    applicants_change_pct admit_rate_change_pp yield_rate_change_pp : ℚ) : SimResult :=
  let base_enrolled := base_applicants * (base_admit_rate / 100) * (base_yield_rate / 100)
  let proj_applicants := base_applicants * (1 + applicants_change_pct / 100)
  let proj_admit_rate := max 0 (min 100 (base_admit_rate + admit_rate_change_pp))
  let proj_yield_rate := max 0 (min 100 (base_yield_rate + yield_rate_change_pp))
  let proj_enrolled := proj_applicants * (proj_admit_rate / 100) * (proj_yield_rate / 100)
  let proj_admitted := proj_applicants * (proj_admit_rate / 100)
  let proj_conversion := if proj_applicants > 0 then proj_enrolled / proj_applicants * 100 else 0
  { base_applicants := pyInt base_applicants
    base_admit_rate := roundTo 2 base_admit_rate
    base_yield_rate := roundTo 2 base_yield_rate
    base_enrolled := pyRound base_enrolled
    proj_applicants := pyRound proj_applicants
    proj_admitted := pyRound proj_admitted
    proj_admit_rate := roundTo 2 proj_admit_rate
    proj_yield_rate := roundTo 2 proj_yield_rate
    proj_enrolled := pyRound proj_enrolled
    proj_conversion := roundTo 2 proj_conversion
    delta_enrolled := pyRound (proj_enrolled - base_enrolled)
    delta_enrolled_pct :=
      if base_enrolled > 0 then some (roundTo 2 ((proj_enrolled - base_enrolled) / base_enrolled * 100))
      else some 0 }

/-- One recommendation produced by `calculate_goal_recommendations`
(src/utils/data_model.py).  The display-only `message` strings of the source
are omitted. -/
structure Recommendation where
  lever : String
  change : ℚ
  unit : String
  priority : ℕ
deriving DecidableEq, Repr

/-- Result of `calculate_goal_recommendations` (the top-level `message`
display string of the source is omitted). -/
structure GoalResult where
  goal_met : Bool
  recommendations : List Recommendation
deriving DecidableEq, Repr

/-- The applicants percentage increase required to reach `enrollment_goal`
after maxing both rates at +10pp, each clamped at 100
(src/utils/data_model.py lines 492-493). -/
def required_applicants_increase (base_applicants base_admit_rate base_yield_rate
    enrollment_goal : ℚ) : ℚ :=
  let max_yield := min 100 (base_yield_rate + 10)
  let max_admit_rate := min 100 (base_admit_rate + 10)
  (enrollment_goal / (max_admit_rate / 100) / (max_yield / 100) - base_applicants) /
    base_applicants * 100

/-- src/utils/data_model.py, `calculate_goal_recommendations` (lines 416-507).
Returns `Option.none` exactly where Python raises `ZeroDivisionError`: each
`if ... = 0 then Option.none` guard below corresponds to a `/` in the source
whose divisor may be zero. -/
def calculate_goal_recommendations (base_applicants base_admit_rate base_yield_rate
    enrollment_goal : ℚ) : Option GoalResult :=
  let base_enrolled := base_applicants * (base_admit_rate / 100) * (base_yield_rate / 100)
  let gap := enrollment_goal - base_enrolled
  if gap ≤ 0 then some ⟨true, []⟩
  else
    let max_yield := min 100 (base_yield_rate + 10)
    let enrolled_with_max_yield := base_applicants * (base_admit_rate / 100) * (max_yield / 100)
    if enrolled_with_max_yield ≥ enrollment_goal then
      if base_applicants * base_admit_rate / 100 = 0 then Option.none
      else
        let needed_yield := enrollment_goal / (base_applicants * base_admit_rate / 100) * 100
        some ⟨true, [⟨"yield_rate", roundTo 2 (needed_yield - base_yield_rate), "pp", 1⟩]⟩
    else
      let recs1 : List Recommendation :=
        if max_yield > base_yield_rate then [⟨"yield_rate", 10, "pp", 1⟩] else []
      let max_admit_rate := min 100 (base_admit_rate + 10)
      let enrolled_with_both := base_applicants * (max_admit_rate / 100) * (max_yield / 100)
      if enrolled_with_both ≥ enrollment_goal then
        if base_applicants * max_yield / 100 = 0 then Option.none
        else
          let needed_admit_rate := enrollment_goal / (base_applicants * max_yield / 100) * 100
          some ⟨true, recs1 ++ [⟨"admit_rate", roundTo 2 (needed_admit_rate - base_admit_rate), "pp", 2⟩]⟩
      else
        if max_admit_rate / 100 = 0 ∨ max_yield / 100 = 0 then Option.none
        else
          let needed_applicants := enrollment_goal / (max_admit_rate / 100) / (max_yield / 100)
          if base_applicants = 0 then Option.none
          else
            let applicants_change := (needed_applicants - base_applicants) / base_applicants * 100
            let recs2 := recs1 ++
              (if max_admit_rate > base_admit_rate then [⟨"admit_rate", 10, "pp", 2⟩] else [])
            some ⟨decide (applicants_change ≤ 30),
                  recs2 ++ [⟨"applicants", roundTo 2 applicants_change, "%", 3⟩]⟩

/-- One row of the facts table, restricted to the columns `get_peer_group`
reads (the remaining columns of `create_facts_by_inst_year` play no role in
peer selection). -/
structure FactsRow where
  unit_id : ℕ
  institution_name : String
  year : ℤ
  applicants : ℤ
  region : String
  state : String
  institution_size : String
deriving DecidableEq, Repr

/-- Stable insertion of a row into a list sorted by descending `applicants`:
the row goes after every earlier row with applicants ≥ its own. -/
def insertByApplicantsDesc (x : FactsRow) : List FactsRow → List FactsRow
  | [] => [x]
  | y :: ys => if y.applicants < x.applicants then x :: y :: ys
               else y :: insertByApplicantsDesc x ys

/-- Stable sort by descending `applicants` (insertion sort). -/
def sortByApplicantsDesc : List FactsRow → List FactsRow
  | [] => []
  | x :: xs => insertByApplicantsDesc x (sortByApplicantsDesc xs)

/-- `DataFrame.nlargest(n, 'applicants')` with pandas' default
`keep='first'`: the `n` rows of largest applicants, ties resolved in favor
of earlier rows. -/
def nlargest (n : ℕ) (l : List FactsRow) : List FactsRow :=
  (sortByApplicantsDesc l).take n

/-- src/utils/data_model.py, `get_peer_group` (lines 183-238): selects the
peer group of `target` for `year` under the given `peer_type`.
`similar_institutions` models the optional precomputed similar-institutions
table by its list of institution names. -/
def get_peer_group (facts : List FactsRow) (target_institution : String) (year : ℤ)
    (peer_type : String) (n : ℕ) (similar_institutions : Option (List String)) :
    List FactsRow :=
  let year_data := facts.filter (fun r => r.year == year)
  if year_data = [] then []
  else
    match year_data.filter (fun r => r.institution_name == target_institution) with
    | [] => year_data
    | target_row :: _ =>
      if peer_type = "national" then year_data
      else if peer_type = "same_region" then
        year_data.filter (fun r => r.region == target_row.region)
      else if peer_type = "same_state" then
        year_data.filter (fun r => r.state == target_row.state)
      else if peer_type = "same_size" then
        year_data.filter (fun r => r.institution_size == target_row.institution_size)
      else if peer_type = "top_n_applicants" then nlargest n year_data
      else if peer_type = "similar" then
        match similar_institutions with
        | some similar_names =>
          year_data.filter (fun r => (similar_names ++ [target_institution]).contains r.institution_name)
        | Option.none => year_data
      else year_data

lemma floor_eq_of (x : ℚ) (z : ℤ) (h0 : (z:ℚ) ≤ x) (h1 : x < (z:ℚ) + 1) : ⌊x⌋ = z := by
  rw [Int.floor_eq_iff]
  exact ⟨h0, by linarith⟩

lemma pyRound_eq_low (x : ℚ) (z : ℤ) (h0 : (z:ℚ) ≤ x) (h1 : x < (z:ℚ) + 1/2) :
    pyRound x = z := by
  have hfl : ⌊x⌋ = z := floor_eq_of x z h0 (by linarith)
  have hfr : Int.fract x < 1/2 := by rw [Int.fract, hfl]; linarith
  unfold pyRound
  rw [if_pos hfr, hfl]

lemma pyRound_eq_high (x : ℚ) (z : ℤ) (h0 : (z:ℚ) + 1/2 < x) (h1 : x < (z:ℚ) + 1) :
    pyRound x = z + 1 := by
  have hfl : ⌊x⌋ = z := floor_eq_of x z (by linarith) h1
  have hfr : 1/2 < Int.fract x := by rw [Int.fract, hfl]; linarith
  unfold pyRound
  rw [if_neg (by rw [Int.fract, hfl]; intro hcon; linarith), if_pos hfr, hfl]

lemma pyRound_tie_even (x : ℚ) (z : ℤ) (hx : x = (z:ℚ) + 1/2) (hz : z % 2 = 0) :
    pyRound x = z := by
  have hfl : ⌊x⌋ = z := floor_eq_of x z (by rw [hx]; linarith) (by rw [hx]; linarith)
  have hfr : Int.fract x = 1/2 := by rw [Int.fract, hfl, hx]; ring
  unfold pyRound
  rw [hfr, hfl, if_neg (by norm_num), if_neg (by norm_num), if_pos hz]

lemma pyRound_intCast (z : ℤ) : pyRound ((z:ℚ)) = z :=
  pyRound_eq_low _ z (le_refl _) (by norm_num)

lemma pyRound_zero : pyRound 0 = 0 := pyRound_eq_low 0 0 (by norm_num) (by norm_num)

lemma pyRound_one : pyRound 1 = 1 := pyRound_eq_low 1 1 (by norm_num) (by norm_num)

lemma pyRound_half : pyRound (1/2) = 0 := pyRound_tie_even (1/2) 0 (by norm_num) (by norm_num)

lemma roundTo_eq_of_int (n : ℕ) (x : ℚ) (z : ℤ) (h : x * 10^n = (z:ℚ)) :
    roundTo n x = (z:ℚ)/10^n := by
  rw [roundTo, h, pyRound_intCast]

lemma abs_pyRound_sub_le (x : ℚ) : |((pyRound x : ℤ) : ℚ) - x| ≤ 1/2 := by
  have h0 : 0 ≤ Int.fract x := Int.fract_nonneg x
  have h1 : Int.fract x < 1 := Int.fract_lt_one x
  have hx : ((⌊x⌋ : ℤ) : ℚ) = x - Int.fract x := (Int.self_sub_fract x).symm
  unfold pyRound
  split_ifs with hf hg hd <;> rw [abs_le] <;> push_cast <;>
    constructor <;> linarith [hx]

lemma rounded_sum_close (a b c d e : ℚ) (h : a + b + c + d = e) :
    |pyRound a + pyRound b + pyRound c + pyRound d - pyRound e| ≤ 2 := by
  have ha := abs_pyRound_sub_le a
  have hb := abs_pyRound_sub_le b
  have hc := abs_pyRound_sub_le c
  have hd := abs_pyRound_sub_le d
  have he := abs_pyRound_sub_le e
  have habs : |((pyRound a + pyRound b + pyRound c + pyRound d - pyRound e : ℤ) : ℚ)| ≤ 5/2 := by
    push_cast
    rw [abs_le] at ha hb hc hd he ⊢
    constructor <;> linarith
  have hcast : ((|pyRound a + pyRound b + pyRound c + pyRound d - pyRound e| : ℤ) : ℚ) < 3 := by
    rw [Int.cast_abs]
    exact lt_of_le_of_lt habs (by norm_num)
  have hlt : |pyRound a + pyRound b + pyRound c + pyRound d - pyRound e| < 3 := by
    exact_mod_cast hcast
  omega

/-- Claim C1 (code bug witness): with three institutions in year 2020 holding
100, 90 and 10 applicants, `get_peer_group` for target "T" in mode
`top_n_applicants` with `n = 2` returns just the two largest rows — the
target's own row is NOT added back, contradicting the documented invariant
(implemented only in the duplicate selector of page_benchmarking.py). -/
theorem get_peer_group_top_n_omits_target :
    get_peer_group
        [⟨1, "A", 2020, 100, "R", "S", "M"⟩, ⟨2, "B", 2020, 90, "R", "S", "M"⟩,
         ⟨3, "T", 2020, 10, "R", "S", "M"⟩]
        "T" 2020 "top_n_applicants" 2 Option.none
      = [⟨1, "A", 2020, 100, "R", "S", "M"⟩, ⟨2, "B", 2020, 90, "R", "S", "M"⟩] := by
  decide

/-- Claim C2 (counterexample): at base (2 applicants, rates 0.5/0.5) and
compare (4 applicants, rates 0.75/0.5) — all values exact in binary floating
point — the rounded fields returned by `decompose_enrolled_variation` give
effects 0.5, 0.5, 0 and residual 0, which round to 0 + 0 + 0 + 0 = 0, while
`delta_enrolled` = 1.0 rounds to 1: the returned values do NOT satisfy the
exact sum identity. -/
theorem decompose_exact_identity_fails :
    (decompose_enrolled_variation 2 (1/2) (1/2) 4 (3/4) (1/2)).effect_applicants +
      (decompose_enrolled_variation 2 (1/2) (1/2) 4 (3/4) (1/2)).effect_admit_rate +
      (decompose_enrolled_variation 2 (1/2) (1/2) 4 (3/4) (1/2)).effect_yield +
      (decompose_enrolled_variation 2 (1/2) (1/2) 4 (3/4) (1/2)).residual ≠
    (decompose_enrolled_variation 2 (1/2) (1/2) 4 (3/4) (1/2)).delta_enrolled := by
  norm_num [decompose_enrolled_variation, effect_applicants_raw, effect_admit_rate_raw,
    effect_yield_raw, residual_raw, delta_enrolled_raw, enrolled_base_raw, enrolled_compare_raw,
    normalize_rate]
  rw [pyRound_half, pyRound_zero, pyRound_one]
  norm_num

/-- Claim C2 (amended): before rounding, the three effects plus the residual
sum to the enrolled delta exactly (the residual is defined as the leftover);
the integer-rounded fields returned by `decompose_enrolled_variation` satisfy
the identity only up to a rounding discrepancy of at most 2. -/
theorem decompose_effects_identity_and_rounding_bound (A0 r0 y0 A1 r1 y1 : ℚ) :
    effect_applicants_raw A0 r0 y0 A1 + effect_admit_rate_raw r0 y0 A1 r1 +
        effect_yield_raw y0 A1 r1 y1 + residual_raw A0 r0 y0 A1 r1 y1 =
      delta_enrolled_raw A0 r0 y0 A1 r1 y1 ∧
    |(decompose_enrolled_variation A0 r0 y0 A1 r1 y1).effect_applicants +
        (decompose_enrolled_variation A0 r0 y0 A1 r1 y1).effect_admit_rate +
        (decompose_enrolled_variation A0 r0 y0 A1 r1 y1).effect_yield +
        (decompose_enrolled_variation A0 r0 y0 A1 r1 y1).residual -
        (decompose_enrolled_variation A0 r0 y0 A1 r1 y1).delta_enrolled| ≤ 2 := by
  constructor
  · unfold residual_raw; ring
  · exact rounded_sum_close _ _ _ _ _ (by unfold residual_raw; ring)

/-- Claim C4 (counterexample): with zero base applicants (so base_enrolled
is 0) and no deltas, `simulate_enrollment` fills `delta_enrolled_pct` with
the number 0, not with the absent-value sentinel. -/
theorem simulate_zero_base_pct_is_zero_not_none :
    (simulate_enrollment 0 50 50 0 0 0).delta_enrolled_pct = some 0 ∧
    (simulate_enrollment 0 50 50 0 0 0).delta_enrolled_pct ≠ Option.none := by
  constructor
  · norm_num [simulate_enrollment]
  · norm_num [simulate_enrollment]
    exact fun hcon => Option.noConfusion hcon

/-- Claim C4 (amended): whenever the base enrolled value
`applicants × admitRate/100 × yieldRate/100` is 0, `simulate_enrollment`
returns `delta_enrolled_pct = 0` (a number, not the `None` sentinel). -/
theorem simulate_zero_base_pct_eq_zero (A r y dApp dAdm dYld : ℚ)
    (h : A * (r / 100) * (y / 100) = 0) :
    (simulate_enrollment A r y dApp dAdm dYld).delta_enrolled_pct = some 0 := by
  simp only [simulate_enrollment]
  rw [h]
  simp

/-- Claim C4 (witness): a concrete zero-base input (1000 applicants but
0% admit rate) on which the amended claim evaluates. -/
theorem simulate_zero_base_pct_witness :
    (simulate_enrollment 1000 0 50 5 5 5).delta_enrolled_pct = some 0 :=
  simulate_zero_base_pct_eq_zero 1000 0 50 5 5 5 (by norm_num)

/-- Claim C5 (counterexample): for `previous = +inf` (non-finite but not na),
`calculate_yoy_delta_count` returns NaN rather than the `None` sentinel:
`pd.isna` does not detect infinities. -/
theorem yoy_delta_count_inf_previous_not_none :
    calculate_yoy_delta_count (some (PyFloat.num 5)) (some PyFloat.inf) = some PyFloat.nan ∧
    some PyFloat.nan ≠ (Option.none : Option PyFloat) := by
  constructor
  · decide
  · decide

/-- Claim C5 (amended): `calculate_yoy_delta_count` returns the `None`
sentinel when `previous` is missing, 0, or NaN, or `current` is missing or
NaN; for finite `current` and finite nonzero `previous` it returns
`(current - previous)/previous * 100` (infinite inputs are not detected and
flow through IEEE arithmetic). -/
theorem yoy_delta_count_spec :
    (∀ c : Option PyFloat,
        calculate_yoy_delta_count c Option.none = Option.none ∧
        calculate_yoy_delta_count c (some (PyFloat.num 0)) = Option.none ∧
        calculate_yoy_delta_count c (some PyFloat.nan) = Option.none) ∧
    (∀ p : Option PyFloat,
        calculate_yoy_delta_count (some PyFloat.nan) p = Option.none ∧
        calculate_yoy_delta_count Option.none p = Option.none) ∧
    (∀ x p : ℚ, p ≠ 0 →
        calculate_yoy_delta_count (some (PyFloat.num x)) (some (PyFloat.num p)) =
          some (PyFloat.num ((x - p) / p * 100))) := by
  refine ⟨fun c => ⟨?_, ?_, ?_⟩, fun p => ⟨?_, ?_⟩, fun x p hp => ?_⟩
  · simp [calculate_yoy_delta_count, pd_isna, PyFloat.isna]
  · simp [calculate_yoy_delta_count, pd_isna, PyFloat.isna]
  · simp [calculate_yoy_delta_count, pd_isna, PyFloat.isna]
  · simp [calculate_yoy_delta_count, pd_isna, PyFloat.isna]
  · simp [calculate_yoy_delta_count, pd_isna, PyFloat.isna]
  · simp [calculate_yoy_delta_count, pd_isna, PyFloat.isna, PyFloat.sub,
      PyFloat.div, PyFloat.mul, hp]

/-- Claim C5 (witness): 10% growth from 100 to 110. -/
theorem yoy_delta_count_spec_witness :
    calculate_yoy_delta_count (some (PyFloat.num 110)) (some (PyFloat.num 100)) =
      some (PyFloat.num ((110 - 100) / 100 * 100)) :=
  yoy_delta_count_spec.2.2 110 100 (by norm_num)

/-- Claim C8: with all three deltas 0 and base rates within [0,100], the
projected enrolled equals the base enrolled exactly. -/
theorem simulate_no_change_identity (A r y : ℚ) (hr0 : 0 ≤ r) (hr1 : r ≤ 100)
    (hy0 : 0 ≤ y) (hy1 : y ≤ 100) :
    (simulate_enrollment A r y 0 0 0).proj_enrolled =
      (simulate_enrollment A r y 0 0 0).base_enrolled := by
  have hr : max 0 (min 100 (r + 0)) = r := by
    rw [add_zero, min_eq_right hr1, max_eq_right hr0]
  have hy : max 0 (min 100 (y + 0)) = y := by
    rw [add_zero, min_eq_right hy1, max_eq_right hy0]
  simp only [simulate_enrollment, hr, hy]
  congr 1
  ring

/-- Claim C8 (witness): the no-change scenario at 1000 applicants,
50% admit rate, 40% yield rate. -/
theorem simulate_no_change_witness :
    (simulate_enrollment 1000 50 40 0 0 0).proj_enrolled =
      (simulate_enrollment 1000 50 40 0 0 0).base_enrolled :=
  simulate_no_change_identity 1000 50 40 (by norm_num) (by norm_num) (by norm_num) (by norm_num)

/-- Claim C7 (counterexample): for the 3-element population [10,20,30] and
value 30, the fraction strictly below is 2/3, so the claimed percentile is
200/3 ≈ 66.67; the function returns the 1-decimal rounding 66.7, which is
not equal to 200/3. -/
theorem rank_percentile_rounding_counterexample :
    (calculate_rank_and_percentile (some 30) [10, 20, 30]).percentile ≠
      some ((2 : ℚ) / 3 * 100) := by
  norm_num [calculate_rank_and_percentile, List.filter]
  rw [if_neg (by simp)]
  rw [roundTo, show (200:ℚ)/3*10^1 = ((666:ℤ):ℚ) + 2/3 by push_cast; ring]
  rw [pyRound_eq_high (((666:ℤ):ℚ) + 2/3) 666 (by norm_num) (by norm_num)]
  norm_num

/-- Claim C7 (amended): for a non-empty population and non-missing value,
the rank is exactly 1 plus the number of strictly greater elements, and the
percentile is 100 times the fraction of strictly smaller elements, rounded
to one decimal place; the two quoted examples hold exactly. -/
theorem rank_and_percentile_spec (v : ℚ) (pop : List ℚ) (hpop : pop ≠ []) :
    (calculate_rank_and_percentile (some v) pop).rank =
      some (pop.countP (fun x => decide (v < x)) + 1) ∧
    (calculate_rank_and_percentile (some v) pop).percentile =
      some (roundTo 1 ((pop.countP (fun x => decide (x < v)) : ℚ) / pop.length * 100)) ∧
    calculate_rank_and_percentile (some 50) [10, 20, 30, 40, 50] = ⟨some 1, 5, some 80⟩ ∧
    calculate_rank_and_percentile (some 10) [10, 20, 30, 40, 50] = ⟨some 5, 5, some 0⟩ := by
  refine ⟨?_, ?_, ?_, ?_⟩
  · simp [calculate_rank_and_percentile, hpop, List.countP_eq_length_filter]
  · simp [calculate_rank_and_percentile, hpop, List.countP_eq_length_filter]
  · norm_num [calculate_rank_and_percentile, List.filter]
    rw [if_neg (by simp)]
    rw [roundTo_eq_of_int 1 _ 800 (by norm_num)]
    norm_num
  · norm_num [calculate_rank_and_percentile, List.filter]
    rw [if_neg (by simp)]
    rw [roundTo_eq_of_int 1 _ 0 (by norm_num)]
    norm_num

/-- Claim C7 (witness): the amended claim instantiated on the population
[10,20,30,40,50] with value 50. -/
theorem rank_and_percentile_witness :
    (calculate_rank_and_percentile (some 50) [10, 20, 30, 40, 50]).rank =
      some (([10, 20, 30, 40, 50] : List ℚ).countP (fun x => decide ((50:ℚ) < x)) + 1) ∧
    (calculate_rank_and_percentile (some 50) [10, 20, 30, 40, 50]).percentile =
      some (roundTo 1 ((([10, 20, 30, 40, 50] : List ℚ).countP (fun x => decide (x < (50:ℚ))) : ℚ) /
        ([10, 20, 30, 40, 50] : List ℚ).length * 100)) ∧
    calculate_rank_and_percentile (some 50) [10, 20, 30, 40, 50] = ⟨some 1, 5, some 80⟩ ∧
    calculate_rank_and_percentile (some 10) [10, 20, 30, 40, 50] = ⟨some 5, 5, some 0⟩ :=
  rank_and_percentile_spec 50 [10, 20, 30, 40, 50] (by simp)

lemma valid_entry_num (a : ℚ) :
    (!(PyFloat.num a).isna && (PyFloat.num a).nonneg) = decide (0 ≤ a) := by
  simp [PyFloat.isna, PyFloat.nonneg]

lemma filter_valid_map_num (l : List ℚ) :
    (l.map PyFloat.num).filter (fun p => !p.isna && p.nonneg) =
      (l.filter (fun p => decide (0 ≤ p))).map PyFloat.num := by
  induction l with
  | nil => rfl
  | cons a t ih =>
    simp only [List.map_cons, List.filter_cons, valid_entry_num]
    by_cases h : (0:ℚ) ≤ a <;> simp [h, ih]

lemma sumF_map_num_aux (l : List ℚ) (q : ℚ) :
    (l.map PyFloat.num).foldl PyFloat.add (PyFloat.num q) = PyFloat.num (q + l.sum) := by
  induction l generalizing q with
  | nil => simp
  | cons a t ih => simp [PyFloat.add, ih]; ring

lemma sumF_map_num (l : List ℚ) : sumF (l.map PyFloat.num) = PyFloat.num l.sum := by
  rw [sumF, sumF_map_num_aux]
  norm_num

lemma map_div_map_num (l : List ℚ) (S : ℚ) (hS : S ≠ 0) :
    (l.map PyFloat.num).map (fun p => p.div (PyFloat.num S)) =
      (l.map (fun p => p / S)).map PyFloat.num := by
  induction l with
  | nil => rfl
  | cons a t ih => simp [PyFloat.div, hS, ih]

lemma map_sq_map_num (l : List ℚ) :
    (l.map PyFloat.num).map (fun p => p.mul p) = (l.map (fun p => p * p)).map PyFloat.num := by
  induction l with
  | nil => rfl
  | cons a t ih => simp [PyFloat.mul, ih]

/-- Claim C9 (counterexample): the input [+inf] is non-finite, so the claim
says it is dropped and the result is 0; `pd.isna` keeps the infinity, which
propagates through the normalization to a NaN result. -/
theorem diversity_index_inf_not_dropped :
    calculate_diversity_index [PyFloat.inf] = PyFloat.nan ∧
    PyFloat.nan ≠ PyFloat.num 0 := by
  constructor
  · decide
  · decide

/-- Claim C9 (amended): `calculate_diversity_index` drops NaN and negative
entries (infinities are kept and poison the result); on all-finite inputs it
returns 0 when no valid entries remain or they sum to 0, and otherwise
`1 - Σ (p_i/total)²` rounded to 4 decimals; a leading NaN entry is dropped,
and the four quoted edge cases evaluate as stated. -/
theorem diversity_index_spec (l : List ℚ) :
    calculate_diversity_index (l.map PyFloat.num) =
      (if (l.filter (fun p => decide (0 ≤ p))) = [] ∨
          (l.filter (fun p => decide (0 ≤ p))).sum = 0
       then PyFloat.num 0
       else PyFloat.num (roundTo 4 (1 -
          (((l.filter (fun p => decide (0 ≤ p))).map
              (fun p => p / (l.filter (fun p => decide (0 ≤ p))).sum)).map
            (fun p => p * p)).sum))) ∧
    calculate_diversity_index (PyFloat.nan :: l.map PyFloat.num) =
      calculate_diversity_index (l.map PyFloat.num) ∧
    calculate_diversity_index ([1, 0, 0, 0, 0].map PyFloat.num) = PyFloat.num 0 ∧
    calculate_diversity_index ([1/5, 1/5, 1/5, 1/5, 1/5].map PyFloat.num) = PyFloat.num (4/5) ∧
    calculate_diversity_index ([1/2, 1/2].map PyFloat.num) = PyFloat.num (1/2) ∧
    calculate_diversity_index [] = PyFloat.num 0 := by
  refine ⟨?_, ?_, ?_, ?_, ?_, ?_⟩
  · simp only [calculate_diversity_index, filter_valid_map_num]
    by_cases hv : l.filter (fun p => decide (0 ≤ p)) = []
    · simp [hv]
    · rw [if_neg (by simp [hv])]
      by_cases hs : (l.filter (fun p => decide (0 ≤ p))).sum = 0
      · simp [sumF_map_num, PyFloat.eqZero, hs, hv]
      · rw [sumF_map_num]
        rw [if_neg (show ¬((PyFloat.num (l.filter (fun p => decide (0 ≤ p))).sum).eqZero = true) by
              simp [PyFloat.eqZero, hs])]
        rw [map_div_map_num _ _ hs, map_sq_map_num, sumF_map_num]
        rw [if_neg (by simp [hv, hs])]
        simp [PyFloat.sub, pyRoundPF]
  · simp [calculate_diversity_index, List.filter_cons, PyFloat.isna]
  · norm_num [calculate_diversity_index, List.filter, PyFloat.isna, PyFloat.nonneg,
      PyFloat.eqZero, sumF, PyFloat.add, PyFloat.div, PyFloat.mul, PyFloat.sub, pyRoundPF]
    intro
    rw [roundTo_eq_of_int 4 0 0 (by norm_num)]
    norm_num
  · norm_num [calculate_diversity_index, List.filter, PyFloat.isna, PyFloat.nonneg,
      PyFloat.eqZero, sumF, PyFloat.add, PyFloat.div, PyFloat.mul, PyFloat.sub, pyRoundPF]
    rw [if_neg (by simp)]
    rw [roundTo_eq_of_int 4 ((4:ℚ)/5) 8000 (by norm_num)]
    norm_num
  · norm_num [calculate_diversity_index, List.filter, PyFloat.isna, PyFloat.nonneg,
      PyFloat.eqZero, sumF, PyFloat.add, PyFloat.div, PyFloat.mul, PyFloat.sub, pyRoundPF]
    rw [if_neg (by simp)]
    rw [roundTo_eq_of_int 4 ((1:ℚ)/2) 5000 (by norm_num)]
    norm_num
  · rfl

lemma required_le_30_of_goal_le (A r y g : ℚ) (hA : 0 < A)
    (hma : 0 < min 100 (r + 10)) (hmy : 0 < min 100 (y + 10))
    (h : g ≤ A * (min 100 (r + 10) / 100) * (min 100 (y + 10) / 100)) :
    required_applicants_increase A r y g ≤ 30 := by
  simp only [required_applicants_increase]
  rw [div_div]
  have hpos : 0 < (min 100 (r + 10) / 100) * (min 100 (y + 10) / 100) := by positivity
  have hna : g / ((min 100 (r + 10) / 100) * (min 100 (y + 10) / 100)) ≤ A := by
    rw [div_le_iff₀ hpos]
    calc g ≤ A * (min 100 (r + 10) / 100) * (min 100 (y + 10) / 100) := h
    _ = A * ((min 100 (r + 10) / 100) * (min 100 (y + 10) / 100)) := by ring
  have h1 : (g / ((min 100 (r + 10) / 100) * (min 100 (y + 10) / 100)) - A) / A ≤ 0 :=
    div_nonpos_of_nonpos_of_nonneg (by linarith) (le_of_lt hA)
  nlinarith [h1]

lemma calcGoal_of_goal_le (A r y g : ℚ) (h : g - A * (r / 100) * (y / 100) ≤ 0) :
    calculate_goal_recommendations A r y g = some ⟨true, []⟩ := by
  simp only [calculate_goal_recommendations]
  rw [if_pos h]

lemma calcGoal_of_goal_gt (A r y g : ℚ) (hA : 0 < A) (hr0 : 0 ≤ r) (hr1 : r ≤ 100)
    (hy0 : 0 ≤ y) (hy1 : y ≤ 100) (h : A * (r / 100) * (y / 100) < g) :
    ∃ res : GoalResult, calculate_goal_recommendations A r y g = some res ∧
      res.recommendations ≠ [] ∧
      (res.goal_met = true ↔ required_applicants_increase A r y g ≤ 30) := by
  have hgap : ¬(g - A * (r / 100) * (y / 100) ≤ 0) := by linarith
  have hmy : (10:ℚ) ≤ min 100 (y + 10) := le_min (by norm_num) (by linarith)
  have hma : (10:ℚ) ≤ min 100 (r + 10) := le_min (by norm_num) (by linarith)
  have hrma : r ≤ min 100 (r + 10) := le_min hr1 (by linarith)
  have hmy0 : (0:ℚ) < min 100 (y + 10) := by linarith
  have hma0 : (0:ℚ) < min 100 (r + 10) := by linarith
  simp only [calculate_goal_recommendations]
  rw [if_neg hgap]
  by_cases hmyg : A * (r / 100) * (min 100 (y + 10) / 100) ≥ g
  · rw [if_pos hmyg]
    have hr : 0 < r := by
      rcases eq_or_lt_of_le hr0 with heq | hlt
      · exfalso
        rw [← heq] at hmyg h
        rw [show A * (0 / 100) * (y / 100) = 0 by ring] at h
        rw [show A * (0 / 100) * (min 100 (y + 10) / 100) = 0 by ring] at hmyg
        linarith
      · exact hlt
    rw [if_neg (ne_of_gt (by positivity : (0:ℚ) < A * r / 100))]
    refine ⟨⟨true, [⟨"yield_rate",
        roundTo 2 (g / (A * r / 100) * 100 - y), "pp", 1⟩]⟩, rfl, by simp, ?_⟩
    have hreq : required_applicants_increase A r y g ≤ 30 := by
      apply required_le_30_of_goal_le A r y g hA hma0 hmy0
      calc g ≤ A * (r / 100) * (min 100 (y + 10) / 100) := hmyg
      _ ≤ A * (min 100 (r + 10) / 100) * (min 100 (y + 10) / 100) := by
          apply mul_le_mul_of_nonneg_right _ (by positivity)
          apply mul_le_mul_of_nonneg_left _ (le_of_lt hA)
          linarith
    exact ⟨fun _ => hreq, fun _ => rfl⟩
  · rw [if_neg hmyg]
    by_cases hbg : A * (min 100 (r + 10) / 100) * (min 100 (y + 10) / 100) ≥ g
    · rw [if_pos hbg]
      rw [if_neg (ne_of_gt (by positivity : (0:ℚ) < A * min 100 (y + 10) / 100))]
      refine ⟨⟨true, _⟩, rfl, ?_, ?_⟩
      · simp
      · have hreq : required_applicants_increase A r y g ≤ 30 :=
          required_le_30_of_goal_le A r y g hA hma0 hmy0 hbg
        exact ⟨fun _ => hreq, fun _ => rfl⟩
    · rw [if_neg hbg]
      rw [if_neg (show ¬(min 100 (r + 10) / 100 = 0 ∨ min 100 (y + 10) / 100 = 0) by
            push_neg
            constructor <;> positivity)]
      rw [if_neg (ne_of_gt hA)]
      refine ⟨⟨_, _⟩, rfl, ?_, ?_⟩
      · simp
      · rw [decide_eq_true_iff]
        simp only [required_applicants_increase]

/-- Claim C3 (counterexample): with 0 base applicants (and ordinary rates),
the final applicants-lever step divides by `base_applicants` and Python
raises `ZeroDivisionError` (modelled as `Option.none`) instead of returning
a `goalMet=false` result. -/
theorem goal_recommendations_zero_applicants_raises :
    calculate_goal_recommendations 0 50 50 100 = Option.none := by
  norm_num [calculate_goal_recommendations]

/-- Claim C3 (amended): for positive base applicants and base rates within
[0,100], `calculate_goal_recommendations` always returns a result (never
raises); an unreachable goal is reported via `goalMet=false` together with a
non-empty best-effort recommendation list. -/
theorem goal_recommendations_total (A r y g : ℚ) (hA : 0 < A) (hr0 : 0 ≤ r)
    (hr1 : r ≤ 100) (hy0 : 0 ≤ y) (hy1 : y ≤ 100) :
    ∃ res : GoalResult, calculate_goal_recommendations A r y g = some res ∧
      (res.goal_met = false → res.recommendations ≠ []) := by
  rcases le_or_lt g (A * (r / 100) * (y / 100)) with hle | hgt
  · exact ⟨⟨true, []⟩, calcGoal_of_goal_le A r y g (by linarith), by simp⟩
  · obtain ⟨res, heq, hne, _⟩ := calcGoal_of_goal_gt A r y g hA hr0 hr1 hy0 hy1 hgt
    exact ⟨res, heq, fun _ => hne⟩

/-- Claim C3 (witness): goal seeking at (1000 applicants, 50% admit,
40% yield) with the over-ambitious target 1000. -/
theorem goal_recommendations_total_witness :
    ∃ res : GoalResult, calculate_goal_recommendations 1000 50 40 1000 = some res ∧
      (res.goal_met = false → res.recommendations ≠ []) :=
  goal_recommendations_total 1000 50 40 1000 (by norm_num) (by norm_num) (by norm_num)
    (by norm_num) (by norm_num)

/-- Claim C6: for positive base applicants and base rates within [0,100], a
target at or below the base enrolled yields `goalMet=true` with an empty
recommendation list; otherwise `goalMet` is true exactly when the applicants
increase required after maxing both rates at +10pp (clamped at 100) is at
most 30%. -/
theorem goal_met_iff_required_le_30 (A r y g : ℚ) (hA : 0 < A) (hr0 : 0 ≤ r)
    (hr1 : r ≤ 100) (hy0 : 0 ≤ y) (hy1 : y ≤ 100) :
    (g ≤ A * (r / 100) * (y / 100) →
        calculate_goal_recommendations A r y g = some ⟨true, []⟩) ∧
    (A * (r / 100) * (y / 100) < g →
        ∃ res : GoalResult, calculate_goal_recommendations A r y g = some res ∧
          (res.goal_met = true ↔ required_applicants_increase A r y g ≤ 30)) := by
  constructor
  · intro h
    exact calcGoal_of_goal_le A r y g (by linarith)
  · intro h
    obtain ⟨res, heq, _, hiff⟩ := calcGoal_of_goal_gt A r y g hA hr0 hr1 hy0 hy1 h
    exact ⟨res, heq, hiff⟩

/-- Claim C6 (witness): at (1000 applicants, 50% admit, 40% yield) the target
200 equals the base enrolled, so the goal is met with no recommendations. -/
theorem goal_met_witness :
    calculate_goal_recommendations 1000 50 40 200 = some ⟨true, []⟩ :=
  (goal_met_iff_required_le_30 1000 50 40 200 (by norm_num) (by norm_num) (by norm_num)
    (by norm_num) (by norm_num)).1 (by norm_num)

/-- Claim C10: provided the target has a row for the requested year, an
unrecognized `peer_type` — and likewise mode "similar" with no precomputed
similar-institutions table — makes `get_peer_group` silently return the full
unfiltered year slice. -/
theorem peer_group_unknown_mode_full_slice (facts : List FactsRow) (target : String)
    (year : ℤ) (peer_type : String) (n : ℕ)
    (hmode : peer_type ∉ (["national", "same_region", "same_state", "same_size",
        "top_n_applicants", "similar"] : List String))
    (htarget : ∃ row ∈ facts, row.year = year ∧ row.institution_name = target) :
    get_peer_group facts target year peer_type n Option.none =
        facts.filter (fun r => r.year == year) ∧
    get_peer_group facts target year "similar" n Option.none =
        facts.filter (fun r => r.year == year) := by
  obtain ⟨row, hmem, hyear, hname⟩ := htarget
  have hrow_mem : row ∈ facts.filter (fun r => r.year == year) := by
    rw [List.mem_filter]
    exact ⟨hmem, by simp [hyear]⟩
  have hYD : ¬(facts.filter (fun r => r.year == year) = []) :=
    List.ne_nil_of_mem hrow_mem
  have hTD : (facts.filter (fun r => r.year == year)).filter
      (fun r => r.institution_name == target) ≠ [] := by
    apply List.ne_nil_of_mem (a := row)
    rw [List.mem_filter]
    exact ⟨hrow_mem, by simp [hname]⟩
  obtain ⟨t, ts, hts⟩ := List.exists_cons_of_ne_nil hTD
  simp only [List.mem_cons, List.mem_singleton] at hmode
  push_neg at hmode
  obtain ⟨h1, h2, h3, h4, h5, h6, -⟩ := hmode
  constructor
  · simp only [get_peer_group, hts]
    rw [if_neg hYD]
    rw [if_neg h1, if_neg h2, if_neg h3, if_neg h4, if_neg h5, if_neg h6]
  · simp only [get_peer_group, hts]
    rw [if_neg hYD]
    rw [if_neg (show ¬("similar" = "national") by decide),
        if_neg (show ¬("similar" = "same_region") by decide),
        if_neg (show ¬("similar" = "same_state") by decide),
        if_neg (show ¬("similar" = "same_size") by decide),
        if_neg (show ¬("similar" = "top_n_applicants") by decide)]
    simp

/-- Claim C10 (witness): the single-row facts table for institution "T" in
2020, queried with the unknown mode "bogus_mode" and with mode "similar"
but no similar-institutions table. -/
theorem peer_group_unknown_mode_witness :
    get_peer_group [⟨1, "T", 2020, 10, "R", "S", "M"⟩] "T" 2020 "bogus_mode" 5 Option.none =
        ([⟨1, "T", 2020, 10, "R", "S", "M"⟩] : List FactsRow).filter (fun r => r.year == 2020) ∧
    get_peer_group [⟨1, "T", 2020, 10, "R", "S", "M"⟩] "T" 2020 "similar" 5 Option.none =
        ([⟨1, "T", 2020, 10, "R", "S", "M"⟩] : List FactsRow).filter (fun r => r.year == 2020) :=
  peer_group_unknown_mode_full_slice [⟨1, "T", 2020, 10, "R", "S", "M"⟩] "T" 2020
    "bogus_mode" 5 (by decide) ⟨⟨1, "T", 2020, 10, "R", "S", "M"⟩, by decide⟩

end EnrollmentAnalytics
